import Mathlib

/-!
Shallow embedding of the diagnostic-session synchronizer of the
`NotNullTeam/system` web client, centred on
`src/pages/CaseDetailRefactored.jsx` and the interaction-request builder
`submitInteraction` of the alternate cases API module.

JavaScript values are modelled by `JsVal`; `null` and `undefined` are
collapsed into a single `vnull` constructor (the operators `?.`, `||` and
`??` used by the source treat them identically).  Numbers are rationals
(the source performs no arithmetic on them).  Object keys are looked up
first-match.
-/

namespace DiagSync

/-- A JSON/JavaScript value.  `vnull` models both `null` and `undefined`. -/
inductive JsVal where
  | vnull : JsVal
  | vbool : Bool → JsVal
  | vnum : Rat → JsVal
  | vstr : String → JsVal
  | varr : List JsVal → JsVal
  | vobj : List (String × JsVal) → JsVal

open JsVal

/-- JavaScript truthiness: `null`/`undefined`, `false`, `0` and `""` are
falsy; every object and array (the empty array included) is truthy. -/
def truthy : JsVal → Bool
  | vnull => false
  | vbool b => b
  | vnum n => decide (n ≠ 0)
  | vstr s => decide (s ≠ "")
  | varr _ => true
  | vobj _ => true

/-- Whether a value is nullish (`null` or `undefined`); the test performed
by the JavaScript `??` operator. -/
def isNull : JsVal → Bool
  | vnull => true
  | _ => false

/-- Strict equality `v === "s"` against a string literal: true exactly for
the equal string. -/
def strictEqStr (v : JsVal) (s : String) : Bool :=
  match v with
  | vstr t => t == s
  | _ => false

/-- Property access `v?.k`: field lookup on an object (first match), and
`undefined` (`vnull`) on every non-object, `null` and `undefined` included. -/
def getField : JsVal → String → JsVal
  | vobj fs, k =>
    match fs.lookup k with
    | some v => v
    | none => vnull
  | _, _ => vnull

/-- The JavaScript `a || b`: `a` when truthy, otherwise `b`. -/
def jsOr (a b : JsVal) : JsVal := if truthy a then a else b

/-- The JavaScript `a ?? b`: `b` exactly when `a` is nullish. -/
def jsNullish (a b : JsVal) : JsVal := if isNull a then b else a

/-- `v.length` as a natural number, for the values the synchronizer feeds to
`.length > 0` tests: array length, string length, and `0` otherwise (where
the source's `undefined > 0` comparison is false). -/
def jsLen : JsVal → Nat
  | varr xs => xs.length
  | vstr s => s.length
  | _ => 0

/-- Spread `[...v]` for the spreadable values: array elements, the
characters of a string, and nothing otherwise. -/
def jsElems : JsVal → List JsVal
  | varr xs => xs
  | vstr s => s.toList.map (fun c => vstr (String.mk [c]))
  | _ => []

/-- Whether a value is an array. -/
def isArray : JsVal → Bool
  | varr _ => true
  | _ => false

/-- The code points JavaScript `String.prototype.trim` strips: WhiteSpace
(TAB, VT, FF, SP, NBSP, BOM and the Zs space separators) and the
LineTerminator code points. -/
def jsWhitespaceCodes : List Nat :=
  [9, 10, 11, 12, 13, 32, 160, 0x1680, 0x2000, 0x2001, 0x2002, 0x2003,
   0x2004, 0x2005, 0x2006, 0x2007, 0x2008, 0x2009, 0x200A, 0x2028, 0x2029,
   0x202F, 0x205F, 0x3000, 0xFEFF]

/-- Whether a character is JavaScript whitespace. -/
def isJsWhitespace (c : Char) : Bool := jsWhitespaceCodes.contains c.toNat

/-- JavaScript `s.trim()`: strip leading and trailing whitespace. -/
def jsTrim (s : String) : String :=
  String.mk (((s.toList.dropWhile isJsWhitespace).reverse.dropWhile
    isJsWhitespace).reverse)

example : truthy (varr []) = true := rfl
example : getField (vobj [("a", vnum 1)]) "a" = vnum 1 := rfl
example : jsOr vnull (varr []) = varr [] := rfl
example : jsTrim "  a " = "a" := by decide
example : jsTrim "   " = "" := by decide

/-! ### Loading and background refresh

`loadCaseData` and `refreshNodes` (CaseDetailRefactored.jsx:47-83) both set
the node and edge state to `res?.data || res || []`. -/

/-- The chained fallback `res?.data || res || []` applied by `loadCaseData`
and `refreshNodes` to the node-list and edge-list responses. -/
def normalizeListResponse (raw : JsVal) : JsVal :=
  jsOr (jsOr (getField raw "data") raw) (varr [])

/-- One successful `refreshNodes` tick (CaseDetailRefactored.jsx:72-83):
`setNodes(nodesRes?.data || nodesRes || [])` and the same for edges — the
previous state (first two arguments) is discarded, not merged into. -/
def refreshNodesStep (_prevNodes _prevEdges nodesRes edgesRes : JsVal) :
    JsVal × JsVal :=
  (normalizeListResponse nodesRes, normalizeListResponse edgesRes)

/-! ### Interaction submission

`handleUserResponse` (CaseDetailRefactored.jsx:94-140): an empty-input guard,
one `submitInteraction` POST, then `const newNodes = response?.data?.new_nodes
|| []` (same for edges) and `setNodes(prev => [...prev, ...newNodes])` under
an `if (newNodes.length > 0)` test. -/

/-- `response?.data?.new_nodes || []` (CaseDetailRefactored.jsx:113). -/
def extractNewNodes (response : JsVal) : JsVal :=
  jsOr (getField (getField response "data") "new_nodes") (varr [])

/-- `response?.data?.new_edges || []` (CaseDetailRefactored.jsx:114). -/
def extractNewEdges (response : JsVal) : JsVal :=
  jsOr (getField (getField response "data") "new_edges") (varr [])

/-- The merge step applied to one of the two state lists:
`if (v.length > 0) setX(prev => [...prev, ...v])` — an unconditional append
of every incoming element, with no id-based deduplication. -/
def mergeAppend (prev : List JsVal) (v : JsVal) : List JsVal :=
  if 0 < jsLen v then prev ++ jsElems v else prev

/-- The component state touched by `handleUserResponse`. -/
structure SessionState where
  nodes : List JsVal
  edges : List JsVal
  userInput : String
  attachments : List JsVal

/-- Outcome of the awaited `submitInteraction` call. -/
inductive NetOutcome where
  | ok : JsVal → NetOutcome
  | err : JsVal → NetOutcome

/-- Observable outcome of one `handleUserResponse` invocation. -/
structure SubmitOutcome where
  state : SessionState
  networkCalls : Nat
  validationRejected : Bool
  surfacedError : Option JsVal
  pollerArmedTarget : Option JsVal

/-- One `handleUserResponse` invocation (CaseDetailRefactored.jsx:94-140),
driven by the outcome `net` of its single `submitInteraction` POST.
The guard `if (!userInput.trim() && attachments.length === 0)` rejects
before any network call; on success the new nodes and edges are appended
and the pending input cleared; on failure the error is alerted and every
piece of state is left untouched.  No code path arms a status poller:
`pollerArmedTarget` is always `none` (the only polling loop in the file,
`pollResult`, belongs to `handleAIAnalysis` and is fed an analysis id, not
an interaction result). -/
def handleUserResponse (s : SessionState) (net : NetOutcome) : SubmitOutcome :=
  if jsTrim s.userInput = "" ∧ s.attachments.length = 0 then
    { state := s, networkCalls := 0, validationRejected := true,
      surfacedError := none, pollerArmedTarget := none }
  else
    match net with
    | .err e =>
      { state := s, networkCalls := 1, validationRejected := false,
        surfacedError := some e, pollerArmedTarget := none }
    | .ok response =>
      { state :=
          { nodes := mergeAppend s.nodes (extractNewNodes response)
            edges := mergeAppend s.edges (extractNewEdges response)
            userInput := ""
            attachments := [] }
        networkCalls := 1, validationRejected := false,
        surfacedError := none, pollerArmedTarget := none }

/-! ### The AI-analysis polling loop

`handleAIAnalysis` (CaseDetailRefactored.jsx:169-224) schedules `pollResult`
once after 1000 ms; each run fetches the analysis result and either stops
(status `COMPLETED`, status `FAILED`, or a fetch error) or reschedules
itself after 2000 ms — with no check counter and no elapsed-time ceiling. -/

/-- Outcome of one `getAnalysisResult` fetch. -/
inductive FetchOutcome where
  | failure : FetchOutcome
  | success : JsVal → FetchOutcome

/-- Whether one `pollResult` run reschedules itself: a fetch error stops
(the `catch` branch), `result?.data?.status === 'COMPLETED'` and
`=== 'FAILED'` stop, and everything else reaches
`setTimeout(pollResult, 2000)`. -/
def pollContinue : FetchOutcome → Bool
  | .failure => false
  | .success result =>
    let st := getField (getField result "data") "status"
    !(strictEqStr st "COMPLETED") && !(strictEqStr st "FAILED")

/-- Whether the polling loop is still scheduled after its first `n` checks,
given the stream of fetch outcomes: it survives check `n` exactly when it
survived the previous ones and check `n` rescheduled. -/
def pollActive (outcomes : Nat → FetchOutcome) : Nat → Bool
  | 0 => true
  | n + 1 => pollActive outcomes n && pollContinue (outcomes n)

/-- Time of check `i` (zero-based), in milliseconds after arming: the first
check is scheduled with `setTimeout(pollResult, 1000)` and each later one
with `setTimeout(pollResult, 2000)` from its predecessor. -/
def checkTimeMs (i : Nat) : Nat := 1000 + 2000 * i

/-- A fetch-outcome stream whose every fetch succeeds with an analysis
still in status `PROCESSING`. -/
def foreverProcessing : Nat → FetchOutcome := fun _ =>
  .success (vobj [("data", vobj [("status", vstr "PROCESSING")])])

/-! ### Mount effect: load guard and refresh interval

The mount effect (CaseDetailRefactored.jsx:34-45) runs `if (id) {
loadCaseData(); setInterval(() => { if (!processing) refreshNodes(); },
5000); }` with dependency array `[id]`. -/

/-- Number of GET requests issued by the mount effect: `if (id)` guards
`loadCaseData()`, which fires `getCaseById`, `getCaseNodes` and
`getCaseEdges`; the guard is plain JavaScript truthiness of the route
parameter. -/
def getRequestsOnMount (id : JsVal) : Nat :=
  if truthy id then 3 else 0

/-- The closure environment of the 5-second interval callback.  Because the
effect's dependency array is `[id]`, the callback is created once (per `id`)
and closes over the `processing` binding of the render that ran the effect;
later `setProcessing` calls produce new bindings in new renders that the
already-created callback never sees. -/
structure RefreshTimer where
  capturedProcessing : Bool

/-- The interval installed by the mount effect: at mount, `processing` is
its `useState(false)` initial value. -/
def mountRefreshTimer : RefreshTimer := { capturedProcessing := false }

/-- Whether one interval tick calls `refreshNodes()`: the guard
`if (!processing)` reads the captured `processing` of the timer's closure,
not the component's current `processing` state (second argument, unused by
the source's callback). -/
def tickRunsRefresh (t : RefreshTimer) (_currentProcessing : Bool) : Bool :=
  !t.capturedProcessing

/-! ### The interaction-request builder

`submitInteraction` of the alternate cases API module: builds the POST
payload from the caller's object, normalizing legacy field spellings and
injecting defaults. -/

/-- The payload built by `submitInteraction(caseId, data)`:
`parentNodeId` from a `??` chain over the known aliases, `response` passed
through or synthesized from `type`/`content`/`attachments` (the latter
defaulted to `[]` by `||`), `retrievalWeight` defaulted to `0.7` and
`filterTags` to `[]` by `??` chains. -/
def submitInteractionPayload (data : JsVal) : JsVal :=
  vobj [
    ("parentNodeId",
      jsNullish (getField data "parentNodeId")
        (jsNullish (getField data "parent_node_id")
          (jsNullish (getField data "parent_nodeID")
            (jsNullish (getField data "parent_nodeId")
              (jsNullish (getField data "parentId")
                (getField data "parent_id")))))),
    ("response",
      jsNullish (getField data "response")
        (vobj [
          ("type", getField data "type"),
          ("content", getField data "content"),
          ("attachments", jsOr (getField data "attachments") (varr []))])),
    ("retrievalWeight",
      jsNullish (getField data "retrievalWeight")
        (jsNullish (getField data "retrieval_weight") (vnum (7 / 10)))),
    ("filterTags",
      jsNullish (getField data "filterTags")
        (jsNullish (getField data "filter_tags") (varr [])))]

/-! ### Sample values used by concrete instances -/

/-- A sample node with id `n1`. -/
def nodeN1 : JsVal := vobj [("id", vstr "n1")]

/-- A sample node with id `n2`. -/
def nodeN2 : JsVal := vobj [("id", vstr "n2")]

/-- A session state with one node and pending text, so the empty-input
guard does not fire. -/
def readyState : SessionState :=
  { nodes := [nodeN1], edges := [], userInput := "hello", attachments := [] }

/-- An interaction response carrying one new node `n1` under the shape the
component reads (`response.data.new_nodes`). -/
def sampleInteractionResponse : JsVal :=
  vobj [("data", vobj [("new_nodes", varr [nodeN1]), ("new_edges", varr [])])]

/-! ### Helper lemmas -/

/-- Merging an array is plain list append: the `length > 0` test only skips
an append of nothing. -/
theorem mergeAppend_varr (prev xs : List JsVal) :
    mergeAppend prev (varr xs) = prev ++ xs := by
  cases xs with
  | nil => simp [mergeAppend, jsLen]
  | cons y ys => simp [mergeAppend, jsLen, jsElems]

/-- A truthy value is not nullish. -/
theorem isNull_of_truthy {v : JsVal} (h : truthy v = true) :
    isNull v = false := by
  cases v <;> simp_all [truthy, isNull]

/-- The `handleUserResponse` success path, when the validation guard does
not fire. -/
theorem handleUserResponse_ok (s : SessionState) (response : JsVal)
    (h : ¬(jsTrim s.userInput = "" ∧ s.attachments.length = 0)) :
    handleUserResponse s (.ok response) =
      { state :=
          { nodes := mergeAppend s.nodes (extractNewNodes response)
            edges := mergeAppend s.edges (extractNewEdges response)
            userInput := ""
            attachments := [] }
        networkCalls := 1, validationRejected := false,
        surfacedError := none, pollerArmedTarget := none } := by
  unfold handleUserResponse
  rw [if_neg h]

/-- The `handleUserResponse` failure path, when the validation guard does
not fire. -/
theorem handleUserResponse_err (s : SessionState) (e : JsVal)
    (h : ¬(jsTrim s.userInput = "" ∧ s.attachments.length = 0)) :
    handleUserResponse s (.err e) =
      { state := s, networkCalls := 1, validationRejected := false,
        surfacedError := some e, pollerArmedTarget := none } := by
  unfold handleUserResponse
  rw [if_neg h]

/-! ### C1 — merge idempotence -/

/-- C1 counterexample: merging the same one-node interaction result into an
empty graph twice does not yield the same node list as merging it once —
the node is appended again, because the merge appends unconditionally with
no id check. -/
theorem C1_counterexample :
    mergeAppend (mergeAppend [] (extractNewNodes sampleInteractionResponse))
        (extractNewNodes sampleInteractionResponse) ≠
      mergeAppend [] (extractNewNodes sampleInteractionResponse) := by
  intro h
  exact absurd (congrArg List.length h) (by decide)

/-- C1 amended: the merge of an interaction result is an unconditional
append — merging the same array of new nodes (or edges) a second time
appends it again, and the second merge is a no-op exactly when the incoming
array is empty. -/
theorem C1_merge_append_twice (prev xs : List JsVal) :
    mergeAppend (mergeAppend prev (varr xs)) (varr xs) = prev ++ xs ++ xs ∧
    (mergeAppend (mergeAppend prev (varr xs)) (varr xs) =
        mergeAppend prev (varr xs) ↔ xs = []) := by
  rw [mergeAppend_varr, mergeAppend_varr]
  refine ⟨rfl, ?_, ?_⟩
  · intro h
    have hl := congrArg List.length h
    simp [List.length_append] at hl
    exact hl
  · intro h
    subst h
    simp

/-- C1 amended, witness: merging the one-node result `[n1]` into an empty
graph twice yields the duplicated list `[n1, n1]`. -/
theorem C1_merge_append_twice_witness :
    mergeAppend (mergeAppend [] (varr [nodeN1])) (varr [nodeN1]) =
      [nodeN1, nodeN1] := by
  simpa using (C1_merge_append_twice [] [nodeN1]).1

/-! ### C2 — poller termination -/

/-- C2 counterexample: fed fetch successes whose status stays `PROCESSING`,
the analysis polling loop is still scheduled after 61 checks, the 61st of
which happens 121 seconds after arming — past the claimed 120-second
ceiling, which does not exist in the code. -/
theorem C2_counterexample :
    pollActive foreverProcessing 61 = true ∧ 120000 < checkTimeMs 60 := by
  constructor
  · decide
  · decide

/-- C2 amended: the polling loop has no elapsed-time ceiling — it stays
scheduled exactly as long as every check so far rescheduled (fetch
succeeded with a status other than `COMPLETED`/`FAILED`), and on a stream
of perpetually-`PROCESSING` successes it remains scheduled after every
number of checks, i.e. it polls indefinitely. -/
theorem C2_poll_no_deadline (outcomes : Nat → FetchOutcome) (n : Nat) :
    (pollActive outcomes n = true ↔
      ∀ i < n, pollContinue (outcomes i) = true) ∧
    pollActive foreverProcessing n = true := by
  constructor
  · induction n with
    | zero => simp [pollActive]
    | succ m ih =>
      rw [pollActive, Bool.and_eq_true, ih]
      constructor
      · rintro ⟨h1, h2⟩ i hi
        rcases Nat.lt_succ_iff_lt_or_eq.mp hi with h | h
        · exact h1 i h
        · exact h ▸ h2
      · intro h
        exact ⟨fun i hi => h i (Nat.lt_succ_of_lt hi), h m (Nat.lt_succ_self m)⟩
  · induction n with
    | zero => rfl
    | succ m ih =>
      rw [pollActive, ih]
      rfl

/-- C2 amended, witness: on the perpetually-`PROCESSING` stream the loop is
still scheduled after 3 checks. -/
theorem C2_poll_no_deadline_witness :
    pollActive foreverProcessing 3 = true :=
  (C2_poll_no_deadline foreverProcessing 3).2

/-! ### C3 — append-only node list -/

/-- C3 counterexample: a background refresh tick that receives an empty
node list from the server replaces the node list wholesale — the
previously-seen node `n1` is deleted, so the client is not append-only. -/
theorem C3_counterexample :
    (refreshNodesStep (varr [nodeN1]) (varr []) (varr []) (varr [])).1 =
        varr [] ∧
    varr [nodeN1] ≠ varr ([] : List JsVal) := by
  refine ⟨rfl, fun h => ?_⟩
  exact absurd (congrArg jsLen h) (by decide)

/-- C3 amended: a successful refresh tick is destructive, not additive — it
replaces the node and edge state with exactly the server's lists,
independent of what was displayed before, so previously-seen nodes survive
only if the server still returns them and the server's order is adopted
verbatim. -/
theorem C3_refresh_replaces (prevNodes prevEdges : JsVal)
    (xs es : List JsVal) :
    refreshNodesStep prevNodes prevEdges (varr xs) (varr es) =
      (varr xs, varr es) := rfl

/-- C3 amended, witness: refreshing a graph showing `n1` with a server list
`[n2]` leaves exactly `[n2]` displayed. -/
theorem C3_refresh_replaces_witness :
    refreshNodesStep (varr [nodeN1]) (varr []) (varr [nodeN2]) (varr []) =
      (varr [nodeN2], varr []) :=
  C3_refresh_replaces (varr [nodeN1]) (varr []) [nodeN2] []

/-! ### C4 — refresh suspended while an interaction is in flight -/

/-- C4: the interval callback installed at mount closes over the
`processing` value of the mounting render (`false`), because the effect's
dependency array is `[id]` — so a 5-second tick that fires while a
submission is in flight (current `processing` state `true`) still runs
`refreshNodes()`: the guard `if (!processing)` reads the stale captured
value and the tick refreshes anyway, contrary to the guard's evident
intent. -/
theorem C4_stale_processing_guard :
    tickRunsRefresh mountRefreshTimer true = true := rfl

/-! ### C5 — normalizer totality and shape -/

/-- C5 counterexample: the list normalization `res?.data || res || []` does
not always return an array — the truthy number `5` is returned verbatim —
and it does not accept a list under `data.nodes`: for
`{data: {nodes: [n1]}}` it returns the inner object, not the list. -/
theorem C5_counterexample :
    isArray (normalizeListResponse (vnum 5)) = false ∧
    isArray (normalizeListResponse
      (vobj [("data", vobj [("nodes", varr [nodeN1])])])) = false := by
  exact ⟨by decide, rfl⟩

/-- C5 amended: normalization of a node-list or edge-list response is the
total chained fallback `res?.data || res || []` — it never throws (it is a
total function) and never returns a nullish value, it returns a bare list
as-is and unwraps an envelope `{data: list}`, but it does not look under
`data.nodes`, and a truthy non-array payload is returned verbatim rather
than replaced by `[]`; the empty array is produced only when both the
payload and its `data` field are falsy. -/
theorem C5_normalize_fallback (raw : JsVal) :
    normalizeListResponse raw =
      (if truthy (getField raw "data") then getField raw "data"
       else if truthy raw then raw else varr []) ∧
    isNull (normalizeListResponse raw) = false ∧
    (∀ xs : List JsVal, normalizeListResponse (varr xs) = varr xs) ∧
    (∀ xs : List JsVal,
      normalizeListResponse (vobj [("data", varr xs)]) = varr xs) := by
  have hshape : normalizeListResponse raw =
      (if truthy (getField raw "data") then getField raw "data"
       else if truthy raw then raw else varr []) := by
    unfold normalizeListResponse jsOr
    cases hd : truthy (getField raw "data") <;>
      cases hr : truthy raw <;> simp [hd, hr]
  refine ⟨hshape, ?_, fun xs => rfl, fun xs => rfl⟩
  rw [hshape]
  cases hd : truthy (getField raw "data") with
  | true => simp [isNull_of_truthy hd]
  | false =>
    cases hr : truthy raw with
    | true => simp [hd, isNull_of_truthy hr]
    | false => simp [hd, hr, isNull]

/-- C5 amended, witness: normalizing the truthy number `5` yields a
non-nullish value (namely `5` itself, per the characterization). -/
theorem C5_normalize_fallback_witness :
    isNull (normalizeListResponse (vnum 5)) = false :=
  (C5_normalize_fallback (vnum 5)).2.1

/-! ### C6 — interaction-result normalization and poller hand-off -/

/-- The spec's Scenario C interaction response, as the bare payload it
describes: one new node `n2` and a processing-node id `n2`. -/
def scenarioCResponse : JsVal :=
  vobj [("new_nodes", varr [nodeN2]), ("processing_node_id", vstr "n2")]

/-- C6 counterexample: for the Scenario C response
`{new_nodes: [{id:"n2"}], processing_node_id: "n2"}`, the component reads
only `response?.data?.new_nodes`, finds nothing (there is no `data`
wrapper), so the graph does not gain `n2` — and no status poller is armed
(the submission handler arms none on any path). -/
theorem C6_counterexample :
    (handleUserResponse readyState (.ok scenarioCResponse)).state.nodes =
        [nodeN1] ∧
    (handleUserResponse readyState
        (.ok scenarioCResponse)).pollerArmedTarget = none := by
  exact ⟨rfl, rfl⟩

/-- C6 amended: only the snake_case spelling `new_nodes` under
`response.data` is recognized (and analogously `new_edges`); the camelCase
spelling `newNodes` is ignored, an absent field defaults to the empty
array, and `processing_node_id`/`processingNodeId` play no role — no
status poller is armed by any interaction response. -/
theorem C6_snake_case_only (s : SessionState)
    (h : ¬(jsTrim s.userInput = "" ∧ s.attachments.length = 0)) :
    (∀ xs : List JsVal,
      (handleUserResponse s
        (.ok (vobj [("data", vobj [("new_nodes", varr xs)])]))).state.nodes =
        s.nodes ++ xs) ∧
    (∀ xs : List JsVal,
      (handleUserResponse s
        (.ok (vobj [("data", vobj [("newNodes", varr xs)])]))).state.nodes =
        s.nodes) ∧
    (∀ response : JsVal,
      (handleUserResponse s (.ok response)).pollerArmedTarget = none) := by
  refine ⟨fun xs => ?_, fun xs => ?_, fun response => ?_⟩
  · rw [handleUserResponse_ok s _ h]
    show mergeAppend s.nodes (varr xs) = s.nodes ++ xs
    exact mergeAppend_varr s.nodes xs
  · rw [handleUserResponse_ok s _ h]
    show mergeAppend s.nodes (varr []) = s.nodes
    rw [mergeAppend_varr]
    simp
  · rw [handleUserResponse_ok s _ h]

/-- C6 amended, witness: from the non-empty state `readyState`, a response
`{data: {new_nodes: [n2]}}` makes the graph gain exactly `n2`. -/
theorem C6_snake_case_only_witness :
    (handleUserResponse readyState
      (.ok (vobj [("data", vobj [("new_nodes", varr [nodeN2])])]))).state.nodes =
      [nodeN1, nodeN2] := by
  have h := (C6_snake_case_only readyState (by decide)).1 [nodeN2]
  simpa [readyState] using h

/-! ### C7 — empty submission rejected before network I/O -/

/-- A session state whose pending input is all-whitespace with no
attachments. -/
def emptyInputState : SessionState :=
  { nodes := [], edges := [], userInput := "   ", attachments := [] }

/-- C7: a submission whose text trims to empty and which carries no
attachments is rejected by the validation guard with zero network calls;
a submission with non-empty trimmed text or at least one attachment never
takes the validation branch. -/
theorem C7_validation_guard (s : SessionState) (net : NetOutcome) :
    (jsTrim s.userInput = "" ∧ s.attachments.length = 0 →
      (handleUserResponse s net).validationRejected = true ∧
      (handleUserResponse s net).networkCalls = 0) ∧
    ((jsTrim s.userInput ≠ "" ∨ s.attachments.length ≠ 0) →
      (handleUserResponse s net).validationRejected = false) := by
  constructor
  · intro h
    unfold handleUserResponse
    rw [if_pos h]
    exact ⟨rfl, rfl⟩
  · intro h
    have h' : ¬(jsTrim s.userInput = "" ∧ s.attachments.length = 0) := by
      tauto
    unfold handleUserResponse
    rw [if_neg h']
    cases net <;> rfl

/-- C7 witness: the all-whitespace, zero-attachment submission is rejected
with no network call. -/
theorem C7_validation_guard_witness :
    (handleUserResponse emptyInputState (.err vnull)).validationRejected =
        true ∧
    (handleUserResponse emptyInputState (.err vnull)).networkCalls = 0 :=
  (C7_validation_guard emptyInputState (.err vnull)).1 (by decide)

/-! ### C8 — failed submission leaves state untouched -/

/-- C8: when the single `submitInteraction` POST of a validated submission
fails, the component state (node list, edge list, pending input and
attachments) is exactly what it was before the call, exactly one network
call was made (no automatic retry), and the error is surfaced. -/
theorem C8_failure_atomic (s : SessionState) (e : JsVal)
    (h : ¬(jsTrim s.userInput = "" ∧ s.attachments.length = 0)) :
    (handleUserResponse s (.err e)).state = s ∧
    (handleUserResponse s (.err e)).networkCalls = 1 ∧
    (handleUserResponse s (.err e)).surfacedError = some e := by
  rw [handleUserResponse_err s e h]
  exact ⟨rfl, rfl, rfl⟩

/-- C8 witness: a failed POST from `readyState` leaves the state equal to
`readyState`, with one network call and the error surfaced. -/
theorem C8_failure_atomic_witness :
    (handleUserResponse readyState (.err (vstr "NetworkError"))).state =
        readyState ∧
    (handleUserResponse readyState
        (.err (vstr "NetworkError"))).networkCalls = 1 ∧
    (handleUserResponse readyState
        (.err (vstr "NetworkError"))).surfacedError =
        some (vstr "NetworkError") :=
  C8_failure_atomic readyState (vstr "NetworkError") (by decide)

/-! ### C9 — guard on an invalid case id -/

/-- C9 counterexample: the mount guard is plain truthiness — the literal
string `"undefined"` is truthy, so mounting with that case id issues the
three GET requests (case, nodes, edges) instead of the claimed zero. -/
theorem C9_counterexample :
    truthy (vstr "undefined") = true ∧
    getRequestsOnMount (vstr "undefined") = 3 := by
  exact ⟨by decide, rfl⟩

/-- C9 amended: the mount effect guards only on JavaScript truthiness of
the route id — loading is suppressed exactly when the id is falsy (absent
or the empty string); the truthy literal `"undefined"` passes the guard and
the three GETs are issued, with no dedicated error transition before the
network calls. -/
theorem C9_truthiness_guard (id : JsVal) :
    (getRequestsOnMount id = 0 ↔ truthy id = false) ∧
    getRequestsOnMount (vstr "undefined") = 3 := by
  refine ⟨?_, rfl⟩
  unfold getRequestsOnMount
  cases h : truthy id <;> simp [h]

/-- C9 amended, witness: a nullish route id is falsy, so no GET is issued
on mount. -/
theorem C9_truthiness_guard_witness :
    getRequestsOnMount vnull = 0 :=
  (C9_truthiness_guard vnull).1.mpr rfl

/-! ### C10 — interaction-request builder defaults -/

/-- The `retrievalWeight` field of the built payload is its `??` chain. -/
theorem payload_retrievalWeight (data : JsVal) :
    getField (submitInteractionPayload data) "retrievalWeight" =
      jsNullish (getField data "retrievalWeight")
        (jsNullish (getField data "retrieval_weight") (vnum (7 / 10))) := rfl

/-- The `filterTags` field of the built payload is its `??` chain. -/
theorem payload_filterTags (data : JsVal) :
    getField (submitInteractionPayload data) "filterTags" =
      jsNullish (getField data "filterTags")
        (jsNullish (getField data "filter_tags") (varr [])) := rfl

/-- The `response` field of the built payload is its `??` fallback. -/
theorem payload_response (data : JsVal) :
    getField (submitInteractionPayload data) "response" =
      jsNullish (getField data "response")
        (vobj [("type", getField data "type"),
               ("content", getField data "content"),
               ("attachments",
                 jsOr (getField data "attachments") (varr []))]) := rfl

/-- Resolving a `??` chain whose head is supplied. -/
theorem jsNullish_not_null {a : JsVal} (b : JsVal)
    (h : isNull a = false) : jsNullish a b = a := by
  unfold jsNullish
  rw [h]
  rfl

/-- Resolving a `??` chain whose head is nullish. -/
theorem jsNullish_null {a : JsVal} (b : JsVal)
    (h : isNull a = true) : jsNullish a b = b := by
  unfold jsNullish
  rw [h]
  rfl

/-- C10: the built interaction payload carries the caller's
`retrievalWeight` (or its `retrieval_weight` alias) when supplied and `0.7`
otherwise; the caller's `filterTags` (or `filter_tags`) when supplied and
`[]` otherwise; and, when no `response` object is supplied, a response
synthesized from the caller's `type`, `content` and `attachments` fields,
with `attachments` defaulting to the empty list when absent. -/
theorem C10_payload_defaults (data : JsVal) :
    (isNull (getField data "retrievalWeight") = false →
      getField (submitInteractionPayload data) "retrievalWeight" =
        getField data "retrievalWeight") ∧
    (isNull (getField data "retrievalWeight") = true →
      isNull (getField data "retrieval_weight") = false →
      getField (submitInteractionPayload data) "retrievalWeight" =
        getField data "retrieval_weight") ∧
    (isNull (getField data "retrievalWeight") = true →
      isNull (getField data "retrieval_weight") = true →
      getField (submitInteractionPayload data) "retrievalWeight" =
        vnum (7 / 10)) ∧
    (isNull (getField data "filterTags") = false →
      getField (submitInteractionPayload data) "filterTags" =
        getField data "filterTags") ∧
    (isNull (getField data "filterTags") = true →
      isNull (getField data "filter_tags") = false →
      getField (submitInteractionPayload data) "filterTags" =
        getField data "filter_tags") ∧
    (isNull (getField data "filterTags") = true →
      isNull (getField data "filter_tags") = true →
      getField (submitInteractionPayload data) "filterTags" = varr []) ∧
    (isNull (getField data "response") = true →
      getField (getField (submitInteractionPayload data) "response")
          "type" = getField data "type" ∧
      getField (getField (submitInteractionPayload data) "response")
          "content" = getField data "content") ∧
    (isNull (getField data "response") = true →
      truthy (getField data "attachments") = true →
      getField (getField (submitInteractionPayload data) "response")
          "attachments" = getField data "attachments") ∧
    (isNull (getField data "response") = true →
      isNull (getField data "attachments") = true →
      getField (getField (submitInteractionPayload data) "response")
          "attachments" = varr []) := by
  refine ⟨?_, ?_, ?_, ?_, ?_, ?_, ?_, ?_, ?_⟩
  · intro h1
    rw [payload_retrievalWeight, jsNullish_not_null _ h1]
  · intro h1 h2
    rw [payload_retrievalWeight, jsNullish_null _ h1, jsNullish_not_null _ h2]
  · intro h1 h2
    rw [payload_retrievalWeight, jsNullish_null _ h1, jsNullish_null _ h2]
  · intro h1
    rw [payload_filterTags, jsNullish_not_null _ h1]
  · intro h1 h2
    rw [payload_filterTags, jsNullish_null _ h1, jsNullish_not_null _ h2]
  · intro h1 h2
    rw [payload_filterTags, jsNullish_null _ h1, jsNullish_null _ h2]
  · intro h1
    rw [payload_response, jsNullish_null _ h1]
    exact ⟨rfl, rfl⟩
  · intro h1 h2
    rw [payload_response, jsNullish_null _ h1]
    show jsOr (getField data "attachments") (varr []) = _
    unfold jsOr
    rw [h2]
    rfl
  · intro h1 h2
    rw [payload_response, jsNullish_null _ h1]
    show jsOr (getField data "attachments") (varr []) = _
    unfold jsOr
    cases hv : getField data "attachments" <;> simp_all [isNull, truthy]

/-- C10 witness: from an empty caller object, the payload carries
`retrievalWeight = 0.7`, `filterTags = []`, and a synthesized response with
`attachments = []`. -/
theorem C10_payload_defaults_witness :
    getField (submitInteractionPayload (vobj [])) "retrievalWeight" =
        vnum (7 / 10) ∧
    getField (submitInteractionPayload (vobj [])) "filterTags" = varr [] ∧
    getField (getField (submitInteractionPayload (vobj [])) "response")
        "attachments" = varr [] :=
  ⟨(C10_payload_defaults (vobj [])).2.2.1 rfl rfl,
   (C10_payload_defaults (vobj [])).2.2.2.2.2.1 rfl rfl,
   (C10_payload_defaults (vobj [])).2.2.2.2.2.2.2.2 rfl rfl⟩

end DiagSync
